import Mathlib

/-!
Shallow embedding of the automation workflow engine of the
Social-media-automaton repository, together with proofs about the
claims of its specification.

The embedded code comes from:
  server/services/error-handler.service.js   (ErrorHandler, InstagramService rate limiting)
  server/models/ProcessedComment.js          (dedup tracker)
  server/services/storage.service.js         (state persistence, dedup wrapper)

JavaScript idioms are made explicit:
  - `x || d` on numbers is `jsOrNat` / `jsOrIntOfOpt` (0, NaN and null are falsy);
  - truthiness of a possibly-missing numeric field is `jsTruthyNat`;
  - machine timestamps and counters are `Nat` (no overflow is reachable here);
  - `Math.random()` outcomes are an explicit rational parameter in `[0,1)`;
  - thrown exceptions are explicit `Except` / sum results.
-/

namespace SMA

/-! ## String helpers (JS `String.prototype.includes`, lowercasing) -/

/-- Does `p` occur at the head of `cs`? (list version of a starts-with test). -/
def leadMatch : List Char → List Char → Bool
  | [], _ => true
  | _ :: _, [] => false
  | p :: ps, c :: cs => p == c && leadMatch ps cs

/-- Does `pat` occur as a contiguous run anywhere in `hay`?
Embeds the JS `hay.includes(pat)`. -/
def hasSub (hay pat : List Char) : Bool :=
  leadMatch pat hay ||
    match hay with
    | [] => false
    | _ :: cs => hasSub cs pat

/-- `s.includes(pat)` on strings. -/
def strIncludes (s pat : String) : Bool :=
  hasSub s.data pat.data

/-- `s.toLowerCase()`. -/
def lowerStr (s : String) : String :=
  ⟨s.data.map Char.toLower⟩

/-! ## JS numeric coercions -/

/-- JS truthiness of a possibly-absent numeric field: present and nonzero. -/
def jsTruthyNat : Option Nat → Bool
  | some n => n ≠ 0
  | none => false

/-- `x || d` where `x` is a possibly-null / possibly-NaN non-negative number
(`none` models both `null` and `NaN`; `some 0` is falsy). -/
def jsOrNat (x : Option Nat) (d : Nat) : Nat :=
  match x with
  | some v => if v = 0 then d else v
  | none => d

/-- `x || d` with an `Int`-valued default (used for
`classifiedError.retryAfter || this.calculateBackoff(...)`). -/
def jsOrIntOfOpt (x : Option Nat) (d : Int) : Int :=
  match x with
  | some v => if v = 0 then d else (v : Int)
  | none => d

/-! ## Raw failures

A raw (not yet classified) failure as `classifyError` consumes it: its
message, its optional `statusCode` field, and the optional
`response.headers['retry-after']` string consulted by `extractRetryAfter`. -/

structure RawError where
  message : String
  statusCode : Option Nat
  retryAfterHeader : Option String
  deriving Repr, DecidableEq

/-! ## The AutomationError class hierarchy

`error-handler.service.js` defines `AutomationError` and five concrete
subclasses.  `ErrClass` records the dynamic class used by the
`instanceof` dispatch in `determineAction`; `AutomationErrorBase` stands
for a directly-constructed `AutomationError` (the base class is never
instantiated directly anywhere in the repository, but the dispatch has a
default branch for it). -/

inductive ErrClass where
  | AuthenticationError
  | RateLimitError
  | NetworkError
  | APIError
  | ValidationError
  | AutomationErrorBase
  deriving Repr, DecidableEq

/-- A constructed `AutomationError` object: dynamic class, message, the
`recoverable` flag set by each constructor, and the class-specific
`retryAfter` / `statusCode` fields (absent on the other classes). -/
structure AutomationErr where
  cls : ErrClass
  message : String
  recoverable : Bool
  retryAfter : Option Nat
  statusCode : Option Nat
  deriving Repr, DecidableEq

/-- `new AuthenticationError(message, ...)`: recoverable = false. -/
def mkAuthenticationError (msg : String) : AutomationErr :=
  ⟨.AuthenticationError, msg, false, none, none⟩

/-- `new RateLimitError(message, retryAfter, ...)`: recoverable = true. -/
def mkRateLimitError (msg : String) (retryAfter : Nat) : AutomationErr :=
  ⟨.RateLimitError, msg, true, some retryAfter, none⟩

/-- `new NetworkError(message, ...)`: recoverable = true. -/
def mkNetworkError (msg : String) : AutomationErr :=
  ⟨.NetworkError, msg, true, none, none⟩

/-- `new APIError(message, statusCode, ...)`: recoverable = true. -/
def mkAPIError (msg : String) (statusCode : Option Nat) : AutomationErr :=
  ⟨.APIError, msg, true, none, statusCode⟩

/-- `new ValidationError(message, field, ...)`: recoverable = false. -/
def mkValidationError (msg : String) : AutomationErr :=
  ⟨.ValidationError, msg, false, none, none⟩

/-! ## extractRetryAfter (error-handler.service.js, lines 329-350) -/

/-- Digits of a decimal run, accumulating the value; returns the value and
the unconsumed rest. -/
def grabDigits : List Char → Nat → Nat × List Char
  | [], acc => (acc, [])
  | c :: cs, acc =>
      if c.isDigit then grabDigits cs (acc * 10 + (c.toNat - 48))
      else (acc, c :: cs)

/-- Skip `\s*`. -/
def skipWs : List Char → List Char
  | [] => []
  | c :: cs => if c.isWhitespace then skipWs cs else c :: cs

/-- The unit alternation `(minute|second|hour)` of the regex in
`extractRetryAfter`, returning the multiplier to milliseconds chosen by
the `startsWith` chain (hour, then minute, then second). -/
def unitFactor (cs : List Char) : Option Nat :=
  if leadMatch "hour".data cs then some 3600000
  else if leadMatch "minute".data cs then some 60000
  else if leadMatch "second".data cs then some 1000
  else none

/-- First match of `/(\d+)\s*(minute|second|hour)/i` in the (already
lowercased) character list, converted to milliseconds. -/
def findDuration : List Char → Option Nat
  | [] => none
  | c :: cs =>
      if c.isDigit then
        let (v, rest) := grabDigits (c :: cs) 0
        match unitFactor (skipWs rest) with
        | some f => some (v * f)
        | none => findDuration cs
      else findDuration cs

/-- JS `parseInt` restricted to the non-negative decimal strings that occur
in `Retry-After` headers: leading whitespace then decimal digits, `none`
for `NaN`. -/
def jsParseInt (s : String) : Option Nat :=
  match skipWs s.data with
  | [] => none
  | c :: cs => if c.isDigit then some (grabDigits (c :: cs) 0).1 else none

/-- `ErrorHandler.extractRetryAfter(error)` (lines 329-350): if a truthy
`retry-after` header is present, `parseInt(header) * 1000` is returned
(`none` models the `NaN` produced by an unparsable header — the caller
treats it as falsy); otherwise the first `(\d+)\s*(minute|second|hour)`
run of the message is converted to milliseconds; otherwise `null`. -/
def extractRetryAfter (e : RawError) : Option Nat :=
  match e.retryAfterHeader with
  | some h =>
      if h ≠ "" then
        match jsParseInt h with
        | some v => some (v * 1000)
        | none => none
      else findDuration (lowerStr e.message).data
  | none => findDuration (lowerStr e.message).data

/-! ## classifyError (error-handler.service.js, lines 127-181) -/

/-- Keyword test of the Authentication branch (message already lowercased). -/
def authMatch (m : String) : Bool :=
  strIncludes m "authentication" || strIncludes m "login" ||
  strIncludes m "invalid credentials" || strIncludes m "challenge_required" ||
  strIncludes m "checkpoint_required" || strIncludes m "not authenticated"

/-- Keyword test of the RateLimit branch. -/
def rateLimitMatch (m : String) : Bool :=
  strIncludes m "rate limit" || strIncludes m "too many requests" ||
  strIncludes m "429"

/-- Keyword test of the Network branch. -/
def networkMatch (m : String) : Bool :=
  strIncludes m "network" || strIncludes m "timeout" ||
  strIncludes m "econnrefused" || strIncludes m "enotfound" ||
  strIncludes m "connection" || strIncludes m "dns"

/-- Keyword/status test of the API branch (`error.statusCode` truthy counts). -/
def apiMatch (m : String) (statusCode : Option Nat) : Bool :=
  strIncludes m "api" || strIncludes m "gemini" ||
  strIncludes m "instagram" || jsTruthyNat statusCode

/-- Keyword test of the Validation branch. -/
def validationMatch (m : String) : Bool :=
  strIncludes m "validation" || strIncludes m "invalid" ||
  strIncludes m "required" || strIncludes m "must be"

/-- `ErrorHandler.classifyError(error)` on a raw (non-`AutomationError`)
input.  (When the input is already an `AutomationError` instance the
method returns it unchanged; that passthrough needs no embedding of its
own.)  The branches are tried in source order on the lowercased message;
the final fallback is `new APIError(error.message, null, ...)`. -/
def classifyError (e : RawError) : AutomationErr :=
  let message := lowerStr e.message
  if authMatch message then mkAuthenticationError e.message
  else if rateLimitMatch message then
    mkRateLimitError e.message (jsOrNat (extractRetryAfter e) 60000)
  else if networkMatch message then mkNetworkError e.message
  else if apiMatch message e.statusCode then mkAPIError e.message e.statusCode
  else if validationMatch message then mkValidationError e.message
  else mkAPIError e.message none

/-! ## determineAction (error-handler.service.js, lines 187-223) -/

inductive ErrorAction where
  | STOP_AUTOMATION
  | RETRY_WITH_BACKOFF
  | SKIP_AND_CONTINUE
  | WAIT_AND_RETRY
  | LOG_AND_CONTINUE
  deriving Repr, DecidableEq

/-- `this.maxRetries` set by the `ErrorHandler` constructor. -/
def maxRetries : Nat := 3

/-- `ErrorHandler.determineAction(error, context)`: `instanceof` dispatch
on the classified error; `context.attemptNumber || 1` supplies the
attempt number. -/
def determineAction (err : AutomationErr) (ctxAttempt : Option Nat) : ErrorAction :=
  let attemptNumber := jsOrNat ctxAttempt 1
  match err.cls with
  | .AuthenticationError => .STOP_AUTOMATION
  | .RateLimitError => .WAIT_AND_RETRY
  | .NetworkError =>
      if maxRetries ≤ attemptNumber then .SKIP_AND_CONTINUE
      else .RETRY_WITH_BACKOFF
  | .APIError =>
      if maxRetries ≤ attemptNumber then .SKIP_AND_CONTINUE
      else .RETRY_WITH_BACKOFF
  | .ValidationError => .SKIP_AND_CONTINUE
  | .AutomationErrorBase => .LOG_AND_CONTINUE

/-! ## calculateBackoff (error-handler.service.js, lines 313-323)

`Math.random()` is made an explicit parameter `rand` ranging over `[0,1)`;
real arithmetic is embedded exactly over `ℚ` (the formula
`backoff * 0.2 * (rand * 2 - 1)` uses the exact constant 1/5). -/

/-- `this.baseBackoffMs` set by the `ErrorHandler` constructor. -/
def baseBackoffMs : Nat := 1000

/-- `this.maxBackoffMs` set by the `ErrorHandler` constructor. -/
def maxBackoffMs : Nat := 60000

/-- `ErrorHandler.calculateBackoff(attemptNumber)`:
`Math.floor(min(base * 2^(attempt-1), cap) + jitter)` with jitter
`backoff * 0.2 * (rand * 2 - 1)`. -/
def calculateBackoff (attemptNumber : Nat) (rand : ℚ) : Int :=
  let backoff : ℚ := min ((baseBackoffMs : ℚ) * 2 ^ (attemptNumber - 1)) (maxBackoffMs : ℚ)
  let jitter : ℚ := backoff * (1 / 5) * (rand * 2 - 1)
  ⌊backoff + jitter⌋

/-! ## executeWithRetry (error-handler.service.js, lines 359-390)

The operation under retry is a function `fn` from the attempt number to
either a raw failure or a success value; the `Math.random()` draw of each
attempt's backoff computation is `rands attempt`.  The interpreter
returns the observable behaviour of the JS method: the value returned or
the error thrown (`Except.error none` is the `throw lastError` of a call
with `maxAttempts = 0`, where `lastError` is still `undefined`), the
number of times `fn` was invoked, and the list of `sleep` durations in
order.  `handleError` (lines 100-121) is inlined at its single call site:
its logging and frontend notification are side effects with no bearing on
control flow, and its returned `action` / `retryAfter` / `shouldStop`
fields are computed exactly as in the source. -/

structure RetryOutcome (α : Type) where
  result : Except (Option RawError) α
  calls : Nat
  sleeps : List Int
  deriving Repr

/-- The retry loop of `executeWithRetry`, with `fuel` the number of loop
iterations still permitted by `attempt <= maxAttempts`. -/
def retryGo {α : Type} (fn : Nat → Sum RawError α) (rands : Nat → ℚ)
    (maxAttempts : Nat) :
    Nat → Nat → Nat → List Int → Option RawError → RetryOutcome α
  | _, 0, calls, sleeps, lastErr => ⟨.error lastErr, calls, sleeps.reverse⟩
  | attempt, fuel + 1, calls, sleeps, _ =>
      match fn attempt with
      | .inr a => ⟨.ok a, calls + 1, sleeps.reverse⟩
      | .inl e =>
          let ce := classifyError e
          let action := determineAction ce (some attempt)
          let retryAfter :=
            jsOrIntOfOpt ce.retryAfter
              (calculateBackoff (jsOrNat (some attempt) 1) (rands attempt))
          if action = .STOP_AUTOMATION then ⟨.error (some e), calls + 1, sleeps.reverse⟩
          else if maxAttempts ≤ attempt then ⟨.error (some e), calls + 1, sleeps.reverse⟩
          else
            let sleeps1 :=
              if action = .RETRY_WITH_BACKOFF || action = .WAIT_AND_RETRY then
                retryAfter :: sleeps
              else sleeps
            retryGo fn rands maxAttempts (attempt + 1) fuel (calls + 1) sleeps1 (some e)

/-- `ErrorHandler.executeWithRetry(fn, context, maxAttempts)`. -/
def executeWithRetry {α : Type} (fn : Nat → Sum RawError α) (rands : Nat → ℚ)
    (maxAttempts : Nat := maxRetries) : RetryOutcome α :=
  retryGo fn rands maxAttempts 1 maxAttempts 0 [] none

/-! ## ProcessedComment model (server/models/ProcessedComment.js)

The MongoDB collection is embedded as a list of records in insertion
order.  The compound index `{ userId: 1, commentId: 1 }, { unique: true }`
(line 62) means `create` raises a duplicate-key error (code 11000)
exactly when a record with the same `(userId, commentId)` already
exists. -/

inductive CommentStatus where
  | detected
  | reply_generated
  | reply_posted
  | failed
  | skipped
  deriving Repr, DecidableEq

structure ProcessedRecord where
  userId : Nat
  commentId : String
  postId : String
  username : String
  commentText : String
  replyText : Option String
  replyId : Option String
  status : CommentStatus
  deriving Repr, DecidableEq

/-- The `commentData` argument of `markProcessed`; `reply`, `replyId` and
`status` are optional there (`status` ranges over the schema enum). -/
structure CommentData where
  id : String
  postId : String
  username : String
  text : String
  reply : Option String
  replyId : Option String
  status : Option CommentStatus
  deriving Repr, DecidableEq

/-- `x || null` on a possibly-absent string (the empty string is falsy). -/
def jsOrStrNull (x : Option String) : Option String :=
  match x with
  | some s => if s = "" then none else some s
  | none => none

/-- Number of stored records with the given `(userId, commentId)` key
(the `countDocuments({ userId, commentId })` of `isProcessed`). -/
def countKey (db : List ProcessedRecord) (userId : Nat) (commentId : String) : Nat :=
  (db.filter fun r => r.userId == userId && r.commentId == commentId).length

/-- `ProcessedComment.isProcessed(userId, commentId)` (lines 72-75):
`countDocuments > 0`. -/
def isProcessed (db : List ProcessedRecord) (userId : Nat) (commentId : String) : Bool :=
  decide (0 < countKey db userId commentId)

/-- `ProcessedComment.markProcessed(userId, commentData)` (lines 80-100):
`create` the record; a duplicate-key failure (error code 11000, raised by
the unique compound index) is caught and turned into `return false`;
success returns `true`.  Result: the updated collection and the returned
boolean. -/
def markProcessed (db : List ProcessedRecord) (userId : Nat) (cd : CommentData) :
    List ProcessedRecord × Bool :=
  if db.any fun r => r.userId == userId && r.commentId == cd.id then
    (db, false)
  else
    (db ++ [{ userId := userId, commentId := cd.id, postId := cd.postId,
              username := cd.username, commentText := cd.text,
              replyText := jsOrStrNull cd.reply, replyId := jsOrStrNull cd.replyId,
              status := cd.status.getD .detected }], true)

/-! ## InstagramService rate limiting (`_checkRateLimit`, constructor)

State is the pair of instance fields mutated by `_checkRateLimit`;
timestamps are milliseconds as `Nat` (`Date.now()` is non-decreasing, and
JS subtraction of a later start from an earlier now would be negative and
therefore fail the `> requestWindow` test exactly as truncated `Nat`
subtraction does).  A rejected call throws; the thrown error is embedded
as `Except.error minutesUntilReset`. -/

/-- `this.requestWindow` (constructor): one hour in milliseconds. -/
def requestWindow : Nat := 3600000

/-- `this.maxRequestsPerHour` (constructor). -/
def maxRequestsPerHour : Nat := 200

structure RLState where
  requestCount : Nat
  requestWindowStart : Nat
  deriving Repr, DecidableEq

/-- `InstagramService._checkRateLimit()`: reset the window when
`now - windowStart > requestWindow`, then either throw (budget
exhausted, with `Math.ceil(timeUntilReset / 60000)` minutes in the
message) or increment the counter and allow. -/
def checkRateLimit (s : RLState) (now : Nat) : RLState × Except Nat Unit :=
  let s1 := if requestWindow < now - s.requestWindowStart then
              { requestCount := 0, requestWindowStart := now }
            else s
  if maxRequestsPerHour ≤ s1.requestCount then
    (s1, .error ((requestWindow - (now - s1.requestWindowStart) + 59999) / 60000))
  else ({ requestCount := s1.requestCount + 1,
          requestWindowStart := s1.requestWindowStart }, .ok ())

/-- The limiter state produced by the `InstagramService` constructor at
time `t0`: `requestCount = 0`, `requestWindowStart = Date.now()`. -/
def initRLState (t0 : Nat) : RLState :=
  { requestCount := 0, requestWindowStart := t0 }

/-- Folding `_checkRateLimit` over a sequence of call times (the state
evolution across any sequence of acquire calls). -/
def runRateLimit (s : RLState) (times : List Nat) : RLState :=
  times.foldl (fun st t => (checkRateLimit st t).1) s

/-! ## StorageService (server/services/storage.service.js)

The relevant persistent state is `user.automationSettings`.  The embedded
methods model the happy path in which the user document exists (the
no-`userId` and missing-user paths throw or return `null` before touching
the state and do not bear on the persistence claims). -/

structure AutomationStats where
  commentsDetected : Nat
  repliesGenerated : Nat
  repliesPosted : Nat
  errorCount : Nat
  deriving Repr, DecidableEq

/-- The automation state object handed to `saveAutomationState` by the
workflow (and expected back from `loadAutomationState` by the
repository's own state-persistence test). -/
structure AutomationState where
  isActive : Bool
  lastCheckTime : Option Nat
  stats : Option AutomationStats
  processedComments : List String
  deriving Repr, DecidableEq

/-- The persisted `user.automationSettings` sub-document (User model). -/
structure UserAutomationSettings where
  replyTone : String
  pollIntervalSeconds : Nat
  maxCommentsPerCheck : Nat
  isActive : Bool
  deriving Repr, DecidableEq

/-- `StorageService.saveAutomationState(state)` (lines 184-201): writes
`user.automationSettings.isActive = state.isActive || false` and saves
the user document.  No other field of `state` is persisted. -/
def saveAutomationState (u : UserAutomationSettings) (state : AutomationState) :
    UserAutomationSettings :=
  { u with isActive := state.isActive }

/-- `StorageService.loadAutomationState()` (lines 206-226): returns
`{ isActive, lastCheckTime: null, processedComments: [] }` rebuilt from
the user document; no `stats` field is present on the result. -/
def loadAutomationState (u : UserAutomationSettings) : AutomationState :=
  { isActive := u.isActive, lastCheckTime := none, stats := none,
    processedComments := [] }

/-- `StorageService.isCommentProcessed(commentId)` (lines 84-95): `false`
when no `userId` is set; otherwise the durable lookup
`ProcessedComment.isProcessed` runs, and any error it throws is caught
and turned into `return false`.  The lookup outcome (value or thrown
error message) is the `lookup` argument. -/
def isCommentProcessed (userId : Option Nat) (lookup : Except String Bool) : Bool :=
  match userId with
  | none => false
  | some _ =>
      match lookup with
      | .ok b => b
      | .error _ => false

/-! ## Helper lemmas -/

/-- Case analysis of one `_checkRateLimit` call. -/
lemma checkRateLimit_spec (s : RLState) (now : Nat) :
    (requestWindow < now - s.requestWindowStart →
       checkRateLimit s now = (⟨1, now⟩, .ok ())) ∧
    (¬ requestWindow < now - s.requestWindowStart →
       maxRequestsPerHour ≤ s.requestCount →
       checkRateLimit s now =
         (s, .error ((requestWindow - (now - s.requestWindowStart) + 59999) / 60000))) ∧
    (¬ requestWindow < now - s.requestWindowStart →
       s.requestCount < maxRequestsPerHour →
       checkRateLimit s now = (⟨s.requestCount + 1, s.requestWindowStart⟩, .ok ())) := by
  refine ⟨?_, ?_, ?_⟩
  · intro hw
    simp [checkRateLimit, hw, maxRequestsPerHour]
  · intro hw hc
    simp [checkRateLimit, hw, hc]
  · intro hw hc
    have hc2 : ¬ maxRequestsPerHour ≤ s.requestCount := by omega
    simp [checkRateLimit, hw, hc2]

/-- One `_checkRateLimit` call keeps `requestCount` within the budget. -/
lemma checkRateLimit_count_le (s : RLState) (now : Nat)
    (h : s.requestCount ≤ maxRequestsPerHour) :
    (checkRateLimit s now).1.requestCount ≤ maxRequestsPerHour := by
  obtain ⟨h1, h2, h3⟩ := checkRateLimit_spec s now
  by_cases hw : requestWindow < now - s.requestWindowStart
  · rw [h1 hw]
    simp [maxRequestsPerHour]
  · by_cases hc : maxRequestsPerHour ≤ s.requestCount
    · rw [h2 hw hc]
      exact h
    · rw [h3 hw (by omega)]
      simp
      omega

/-- `requestCount` stays within the budget along any sequence of calls. -/
lemma runRateLimit_count_le (times : List Nat) :
    ∀ s : RLState, s.requestCount ≤ maxRequestsPerHour →
      (runRateLimit s times).requestCount ≤ maxRequestsPerHour := by
  induction times with
  | nil => intro s hs; simpa [runRateLimit] using hs
  | cons t ts ih =>
      intro s hs
      simpa [runRateLimit] using ih _ (checkRateLimit_count_le s t hs)

/-! ## C9 -/

/-- C9: if the durable dedup lookup throws, `StorageService.isCommentProcessed`
catches the error and returns `false` — the comment is reported as
unprocessed instead of the error propagating to the caller. -/
theorem isCommentProcessed_catch_returns_false :
    ∀ (userId : Option Nat) (msg : String),
      isCommentProcessed userId (.error msg) = false := by
  intro userId msg
  cases userId <;> rfl

/-! ## C8 -/

/-- C8 (divergence witness): persisting an active `RunState` whose stats
counters are `{commentsDetected := 5, repliesGenerated := 4,
repliesPosted := 3, errorCount := 1}` and loading it back yields a state
whose `isActive` survived but whose `stats` are gone (`none`), so the
counters cannot carry over unchanged across a restart; this is the
round trip the repository's own state-persistence test exercises. -/
theorem saveLoad_drops_stats :
    (loadAutomationState (saveAutomationState ⟨"friendly", 30, 10, false⟩
        ⟨true, some 1700000000000, some ⟨5, 4, 3, 1⟩, []⟩)).isActive = true ∧
    (loadAutomationState (saveAutomationState ⟨"friendly", 30, 10, false⟩
        ⟨true, some 1700000000000, some ⟨5, 4, 3, 1⟩, []⟩)).stats = none ∧
    (loadAutomationState (saveAutomationState ⟨"friendly", 30, 10, false⟩
        ⟨true, some 1700000000000, some ⟨5, 4, 3, 1⟩, []⟩)).stats ≠
      some ⟨5, 4, 3, 1⟩ := by
  refine ⟨rfl, rfl, ?_⟩
  decide

/-! ## C6 -/

/-- C6 (counterexample): at the instant `now - windowStart = windowDuration`
exactly, the window does not reset — the state is returned unchanged (and
an exhausted budget is still rejected) — whereas the claim requires
`count → 0, windowStart → now` already at `≥`. -/
theorem checkRateLimit_boundary_counterexample :
    checkRateLimit ⟨200, 0⟩ 3600000 = (⟨200, 0⟩, .error 0) ∧
    (checkRateLimit ⟨200, 0⟩ 3600000).1.requestWindowStart ≠ 3600000 ∧
    (checkRateLimit ⟨200, 0⟩ 3600000).1.requestCount ≠ 0 := by
  refine ⟨rfl, by decide, by decide⟩

/-- C6 (amended): `count` never exceeds `limit` across any sequence of
acquire calls, an over-budget call is rejected without incrementing
`count`, and the window resets (count→0 then the allowed call counts 1,
windowStart→now) the instant `now - windowStart` STRICTLY exceeds
`windowDuration`; at exactly `windowDuration` the old window still
applies. -/
theorem rateWindow_invariant_amended (s : RLState) (now : Nat) :
    (s.requestCount ≤ maxRequestsPerHour →
       (checkRateLimit s now).1.requestCount ≤ maxRequestsPerHour) ∧
    (∀ (t0 : Nat) (times : List Nat),
       (runRateLimit (initRLState t0) times).requestCount ≤ maxRequestsPerHour) ∧
    (requestWindow < now - s.requestWindowStart →
       (checkRateLimit s now).1 = ⟨1, now⟩ ∧ (checkRateLimit s now).2 = .ok ()) ∧
    (now - s.requestWindowStart ≤ requestWindow →
       maxRequestsPerHour ≤ s.requestCount →
       (checkRateLimit s now).1 = s ∧
       (checkRateLimit s now).2 =
         .error ((requestWindow - (now - s.requestWindowStart) + 59999) / 60000)) ∧
    (now - s.requestWindowStart ≤ requestWindow →
       s.requestCount < maxRequestsPerHour →
       (checkRateLimit s now).1 = ⟨s.requestCount + 1, s.requestWindowStart⟩ ∧
       (checkRateLimit s now).2 = .ok ()) := by
  obtain ⟨h1, h2, h3⟩ := checkRateLimit_spec s now
  refine ⟨checkRateLimit_count_le s now, ?_, ?_, ?_, ?_⟩
  · intro t0 times
    exact runRateLimit_count_le times (initRLState t0) (by simp [initRLState])
  · intro hw
    rw [h1 hw]
    exact ⟨rfl, rfl⟩
  · intro hw hc
    rw [h2 (by omega) hc]
    exact ⟨rfl, rfl⟩
  · intro hw hc
    rw [h3 (by omega) hc]
    exact ⟨rfl, rfl⟩

/-- C6 (witness): the amended theorem applied to an exhausted budget
within the window. -/
theorem rateWindow_invariant_amended_witness :
    (50 - (⟨200, 0⟩ : RLState).requestWindowStart ≤ requestWindow ∧
     maxRequestsPerHour ≤ (⟨200, 0⟩ : RLState).requestCount) ∧
    (checkRateLimit ⟨200, 0⟩ 50).1 = ⟨200, 0⟩ :=
  ⟨⟨by decide, by decide⟩,
   ((rateWindow_invariant_amended ⟨200, 0⟩ 50).2.2.2.1 (by decide) (by decide)).1⟩

/-! ## C1 -/

/-- C1: dedup insertion is idempotent.  Starting from a collection with no
record for `(u, cd.id)`: the first `markProcessed` inserts and returns
`true`; the second is swallowed by the duplicate-key catch as a no-op
returning `false` (not an error); exactly one record with that key is
stored; and `isProcessed` returns `true` after either call. -/
theorem markProcessed_idempotent (db : List ProcessedRecord) (u : Nat) (cd : CommentData)
    (h : countKey db u cd.id = 0) :
    (markProcessed db u cd).2 = true ∧
    (markProcessed (markProcessed db u cd).1 u cd).2 = false ∧
    (markProcessed (markProcessed db u cd).1 u cd).1 = (markProcessed db u cd).1 ∧
    countKey (markProcessed (markProcessed db u cd).1 u cd).1 u cd.id = 1 ∧
    isProcessed (markProcessed db u cd).1 u cd.id = true ∧
    isProcessed (markProcessed (markProcessed db u cd).1 u cd).1 u cd.id = true := by
  have hnil : db.filter (fun r => r.userId == u && r.commentId == cd.id) = [] :=
    List.length_eq_zero.mp h
  have hany : (db.any fun r => r.userId == u && r.commentId == cd.id) = false := by
    rw [List.any_eq_false]
    intro r hr
    have := List.filter_eq_nil_iff.mp hnil r hr
    simpa using this
  simp [markProcessed, hany, countKey, isProcessed, List.filter_append, hnil,
    List.any_append]

/-- C1 (witness): the idempotence theorem at a concrete empty collection
and comment. -/
theorem markProcessed_idempotent_witness :
    countKey [] 1 "c1" = 0 ∧
    (markProcessed (markProcessed [] 1 ⟨"c1", "p1", "bob", "hi", none, none, none⟩).1
       1 ⟨"c1", "p1", "bob", "hi", none, none, none⟩).2 = false :=
  ⟨by decide,
   (markProcessed_idempotent [] 1 ⟨"c1", "p1", "bob", "hi", none, none, none⟩
     (by decide)).2.1⟩

/-- The class chosen by `classifyError` depends only on the five branch
conditions over the lowercased message and the status code. -/
lemma classifyError_cls (e : RawError) :
    (classifyError e).cls =
      (if authMatch (lowerStr e.message) then ErrClass.AuthenticationError
       else if rateLimitMatch (lowerStr e.message) then ErrClass.RateLimitError
       else if networkMatch (lowerStr e.message) then ErrClass.NetworkError
       else if apiMatch (lowerStr e.message) e.statusCode then ErrClass.APIError
       else if validationMatch (lowerStr e.message) then ErrClass.ValidationError
       else ErrClass.APIError) := by
  by_cases h1 : authMatch (lowerStr e.message) <;>
  by_cases h2 : rateLimitMatch (lowerStr e.message) <;>
  by_cases h3 : networkMatch (lowerStr e.message) <;>
  by_cases h4 : apiMatch (lowerStr e.message) e.statusCode <;>
  by_cases h5 : validationMatch (lowerStr e.message) <;>
  simp [classifyError, h1, h2, h3, h4, h5, mkAuthenticationError, mkRateLimitError,
    mkNetworkError, mkAPIError, mkValidationError]

/-! ## C2 -/

/-- C2: `classifyError` is a pure, total, deterministic function of the raw
failure's message and attached HTTP status: every input yields exactly
one of the five kinds, two raw failures with the same message and status
classify identically, and an input matching none of the branch keywords
(and carrying no truthy status) defaults to `API`. -/
theorem classifyError_total_pure (e : RawError) :
    ((classifyError e).cls = .AuthenticationError ∨
     (classifyError e).cls = .RateLimitError ∨
     (classifyError e).cls = .NetworkError ∨
     (classifyError e).cls = .APIError ∨
     (classifyError e).cls = .ValidationError) ∧
    (∀ e2 : RawError, e.message = e2.message → e.statusCode = e2.statusCode →
       (classifyError e).cls = (classifyError e2).cls) ∧
    (authMatch (lowerStr e.message) = false →
     rateLimitMatch (lowerStr e.message) = false →
     networkMatch (lowerStr e.message) = false →
     apiMatch (lowerStr e.message) e.statusCode = false →
     validationMatch (lowerStr e.message) = false →
     (classifyError e).cls = .APIError) := by
  refine ⟨?_, ?_, ?_⟩
  · rw [classifyError_cls]
    split_ifs <;> simp
  · intro e2 hm hs
    rw [classifyError_cls, classifyError_cls, hm, hs]
  · intro a b c d f
    rw [classifyError_cls]
    simp [a, b, c, d, f]

/-- C2 (witness): a keyword-free failure defaults to the API kind. -/
theorem classifyError_total_pure_witness :
    authMatch (lowerStr "xyz") = false ∧
    (classifyError ⟨"xyz", none, none⟩).cls = .APIError :=
  ⟨by decide,
   (classifyError_total_pure ⟨"xyz", none, none⟩).2.2 (by decide) (by decide)
     (by decide) (by decide) (by decide)⟩

/-! ## C10 -/

/-- C10: for every classified error (anything `classifyError` can produce —
its outputs never carry the bare base class), `determineAction` returns
one of the four actions STOP_AUTOMATION, WAIT_AND_RETRY,
RETRY_WITH_BACKOFF, SKIP_AND_CONTINUE; the default LOG_AND_CONTINUE
branch is unreachable. -/
theorem determineAction_total_classified (err : AutomationErr)
    (hcls : err.cls ≠ .AutomationErrorBase) :
    (∀ ctx : Option Nat,
       (determineAction err ctx = .STOP_AUTOMATION ∨
        determineAction err ctx = .WAIT_AND_RETRY ∨
        determineAction err ctx = .RETRY_WITH_BACKOFF ∨
        determineAction err ctx = .SKIP_AND_CONTINUE) ∧
       determineAction err ctx ≠ .LOG_AND_CONTINUE) ∧
    (∀ e : RawError, (classifyError e).cls ≠ .AutomationErrorBase) := by
  constructor
  · intro ctx
    cases h : err.cls <;> simp only [determineAction, h] <;>
      first
        | exact absurd h hcls
        | refine ⟨?_, ?_⟩ <;> first
            | (split_ifs <;> simp)
            | simp
  · intro e
    rw [classifyError_cls]
    split_ifs <;> simp

/-- C10 (witness): the theorem at a concrete Validation-classified error. -/
theorem determineAction_total_classified_witness :
    (mkValidationError "x").cls ≠ ErrClass.AutomationErrorBase ∧
    determineAction (mkValidationError "x") none ≠ .LOG_AND_CONTINUE :=
  ⟨by decide,
   ((determineAction_total_classified (mkValidationError "x") (by decide)).1 none).2⟩

/-! ## C3 -/

/-- C3: a failure classifying as Authentication makes `determineAction`
return STOP_AUTOMATION for every attempt count, and `executeWithRetry`
rethrows the original error right after the first failing attempt: one
invocation, no sleep, no retry. -/
theorem authentication_stops_immediately {α : Type} (e : RawError)
    (fn : Nat → Sum RawError α) (rands : Nat → ℚ) (maxAttempts : Nat)
    (hm : 1 ≤ maxAttempts) (hfn : fn 1 = Sum.inl e)
    (hcls : (classifyError e).cls = .AuthenticationError) :
    (∀ ctx : Option Nat, determineAction (classifyError e) ctx = .STOP_AUTOMATION) ∧
    executeWithRetry fn rands maxAttempts = ⟨.error (some e), 1, []⟩ := by
  constructor
  · intro ctx
    simp [determineAction, hcls]
  · obtain ⟨k, rfl⟩ : ∃ k, maxAttempts = k + 1 := ⟨maxAttempts - 1, by omega⟩
    simp [executeWithRetry, retryGo, hfn, determineAction, hcls]

/-- C3 (witness): the theorem at a concrete authentication failure under
the default three attempts. -/
theorem authentication_stops_immediately_witness :
    (classifyError ⟨"not authenticated", none, none⟩).cls = .AuthenticationError ∧
    executeWithRetry (α := Unit)
      (fun _ => Sum.inl ⟨"not authenticated", none, none⟩) (fun _ => 0) 3 =
      ⟨.error (some ⟨"not authenticated", none, none⟩), 1, []⟩ :=
  ⟨by decide,
   (authentication_stops_immediately (α := Unit) ⟨"not authenticated", none, none⟩
      (fun _ => Sum.inl ⟨"not authenticated", none, none⟩) (fun _ => 0) 3
      (by decide) rfl (by decide)).2⟩

/-! ## C4 -/

/-- C4 (counterexample): with an operation that always fails with a
Validation-classified error and the default three attempts,
`executeWithRetry` invokes the operation three times, not once — there is
no skip short-circuit on the first SKIP outcome (only `shouldStop`
breaks out of the loop early). -/
theorem validation_no_shortcircuit_counterexample :
    (executeWithRetry (α := Unit)
       (fun _ => Sum.inl ⟨"validation failed", none, none⟩) (fun _ => 0) 3).calls = 3 ∧
    (executeWithRetry (α := Unit)
       (fun _ => Sum.inl ⟨"validation failed", none, none⟩) (fun _ => 0) 3).calls ≠ 1 :=
  ⟨rfl, by decide⟩

/-- In the retry loop, a stream of Validation-classified failures is
re-invoked (without sleeping) until the attempt bound is reached, and the
last raw error is then rethrown. -/
lemma retryGo_validation {α : Type} (fn : Nat → Sum RawError α) (rands : Nat → ℚ)
    (maxAttempts : Nat)
    (hfn : ∀ n, ∃ e, fn n = Sum.inl e ∧ (classifyError e).cls = .ValidationError) :
    ∀ fuel attempt calls sleeps lastErr, 1 ≤ fuel →
      attempt + fuel = maxAttempts + 1 →
      ∃ e, fn maxAttempts = Sum.inl e ∧ (classifyError e).cls = .ValidationError ∧
        retryGo fn rands maxAttempts attempt fuel calls sleeps lastErr =
          ⟨.error (some e), calls + fuel, sleeps.reverse⟩ := by
  intro fuel
  induction fuel with
  | zero => intro attempt calls sleeps lastErr h1 _; omega
  | succ f ih =>
      intro attempt calls sleeps lastErr h1 h2
      obtain ⟨e, hfe, hcls⟩ := hfn attempt
      by_cases hlast : f = 0
      · subst hlast
        have ha : attempt = maxAttempts := by omega
        subst ha
        refine ⟨e, hfe, hcls, ?_⟩
        simp [retryGo, hfe, determineAction, hcls]
      · have hlt : ¬ maxAttempts ≤ attempt := by omega
        obtain ⟨e2, hfe2, hcls2, hrec⟩ :=
          ih (attempt + 1) (calls + 1) sleeps (some e) (by omega) (by omega)
        refine ⟨e2, hfe2, hcls2, ?_⟩
        have hstep : retryGo fn rands maxAttempts attempt (f + 1) calls sleeps lastErr =
            retryGo fn rands maxAttempts (attempt + 1) f (calls + 1) sleeps (some e) := by
          simp [retryGo, hfe, determineAction, hcls, hlt]
        rw [hstep, hrec]
        have : calls + 1 + f = calls + (f + 1) := by omega
        rw [this]

/-- C4 (amended): `determineAction` returns SKIP_AND_CONTINUE for every
Validation-classified error regardless of attempt count, but
`executeWithRetry` does not short-circuit on SKIP: it re-invokes the
failing operation on every remaining attempt (without sleeping between
attempts, since SKIP is neither of the two sleeping actions) and only
after `maxAttempts` attempts propagates the original error, which the
caller then treats as the terminal skip signal. -/
theorem validation_skip_amended {α : Type} (fn : Nat → Sum RawError α)
    (rands : Nat → ℚ) (maxAttempts : Nat) (hm : 1 ≤ maxAttempts)
    (hfn : ∀ n, ∃ e, fn n = Sum.inl e ∧ (classifyError e).cls = .ValidationError) :
    (∀ (err : AutomationErr) (ctx : Option Nat), err.cls = .ValidationError →
       determineAction err ctx = .SKIP_AND_CONTINUE) ∧
    (executeWithRetry fn rands maxAttempts).calls = maxAttempts ∧
    (executeWithRetry fn rands maxAttempts).sleeps = [] ∧
    (∃ e, (executeWithRetry fn rands maxAttempts).result = .error (some e) ∧
       (classifyError e).cls = .ValidationError) := by
  obtain ⟨e, hfe, hcls, hrun⟩ :=
    retryGo_validation fn rands maxAttempts hfn maxAttempts 1 0 [] none
      (by omega) (by omega)
  refine ⟨?_, ?_, ?_, ?_⟩
  · intro err ctx hv
    simp [determineAction, hv]
  · simp [executeWithRetry, hrun]
  · simp [executeWithRetry, hrun]
  · exact ⟨e, by simp [executeWithRetry, hrun], hcls⟩

/-- C4 (witness): the amended theorem at a concrete always-invalid
operation under the default three attempts. -/
theorem validation_skip_amended_witness :
    (1 : Nat) ≤ 3 ∧
    (executeWithRetry (α := Unit)
       (fun _ => Sum.inl ⟨"invalid data", none, none⟩) (fun _ => 0) 3).calls = 3 :=
  ⟨by decide,
   (validation_skip_amended (α := Unit)
      (fun _ => Sum.inl ⟨"invalid data", none, none⟩) (fun _ => 0) 3 (by decide)
      (fun _ => ⟨⟨"invalid data", none, none⟩, rfl, by decide⟩)).2.1⟩

/-! ## C7 -/

/-- C7 (counterexample): a failure whose HTTP status is 429 but whose
message carries no rate-limit keyword classifies as API, not RateLimit —
`classifyError` never consults the status code for the RateLimit
branch. -/
theorem status429_counterexample :
    (classifyError ⟨"request failed", some 429, none⟩).cls = .APIError ∧
    (classifyError ⟨"request failed", some 429, none⟩).cls ≠ .RateLimitError :=
  ⟨rfl, by decide⟩

/-- C7 (amended): a raw failure whose MESSAGE indicates quota exhaustion
(contains `rate limit`, `too many requests` or `429` after lowercasing —
the HTTP status field is not consulted) and that matches no
authentication keyword (those are checked first) classifies as RateLimit
with `retryable = true`; its `retryAfter` is the JS-truthy extraction
result defaulted to 60000 ms: a nonzero parsed `Retry-After`-style
header gives `seconds * 1000`, and when nothing usable is extracted the
conservative 60 s default applies. -/
theorem rateLimit_classification_amended (e : RawError)
    (hrl : rateLimitMatch (lowerStr e.message) = true)
    (hauth : authMatch (lowerStr e.message) = false) :
    (classifyError e).cls = .RateLimitError ∧
    (classifyError e).recoverable = true ∧
    (classifyError e).retryAfter = some (jsOrNat (extractRetryAfter e) 60000) ∧
    (∀ h v, e.retryAfterHeader = some h → h ≠ "" → jsParseInt h = some v → 0 < v →
       (classifyError e).retryAfter = some (v * 1000)) ∧
    (extractRetryAfter e = none → (classifyError e).retryAfter = some 60000) := by
  have hfull : classifyError e =
      mkRateLimitError e.message (jsOrNat (extractRetryAfter e) 60000) := by
    unfold classifyError
    simp [hauth, hrl]
  refine ⟨?_, ?_, ?_, ?_, ?_⟩
  · rw [hfull]; rfl
  · rw [hfull]; rfl
  · rw [hfull]; rfl
  · intro h v hh hne hp hv
    rw [hfull]
    have hex : extractRetryAfter e = some (v * 1000) := by
      unfold extractRetryAfter
      rw [hh]
      simp [hne, hp]
    have hnz : v * 1000 ≠ 0 := by omega
    simp [mkRateLimitError, hex, jsOrNat, hnz]
  · intro hex
    rw [hfull]
    simp [mkRateLimitError, jsOrNat, hex]

/-- C7 (witness): the amended theorem at a concrete 429-keyword failure
carrying a parsable Retry-After header of 30 seconds. -/
theorem rateLimit_classification_amended_witness :
    rateLimitMatch (lowerStr "too many requests") = true ∧
    (classifyError ⟨"too many requests", none, some "30"⟩).retryAfter = some (30 * 1000) :=
  ⟨by decide,
   (rateLimit_classification_amended ⟨"too many requests", none, some "30"⟩
      (by decide) (by decide)).2.2.2.1 "30" 30 rfl (by decide) (by decide) (by decide)⟩

/-! ## C5 -/

/-- C5 (counterexample): the cap is applied before the jitter, so the
delay can exceed 60000 ms.  At attempt 7 with jitter outcome 99/100 the
delay is 71760 ms (beyond the claimed 60000 ms cap), and at attempt 8
with jitter outcome 0 the delay is 48000 ms, below the claimed interval
lower bound `0.8 * base * 2^(8-1) = 102400`. -/
theorem calculateBackoff_counterexample :
    ((0 : ℚ) ≤ 99 / 100 ∧ (99 : ℚ) / 100 < 1 ∧
     calculateBackoff 7 (99 / 100) = 71760 ∧
     ¬ calculateBackoff 7 (99 / 100) ≤ 60000) ∧
    ((0 : ℚ) ≤ 0 ∧ (0 : ℚ) < 1 ∧ calculateBackoff 8 0 = 48000 ∧
     ¬ 4 * ((1000 : ℤ) * 2 ^ (8 - 1)) ≤ 5 * calculateBackoff 8 0) := by
  norm_num [calculateBackoff, baseBackoffMs, maxBackoffMs, min_def]

/-- C5 (amended): the delay is `floor(M + M * 0.2 * (2r - 1))` for
`M = min(base * 2^(n-1), 60000)` — the ±20% jitter applies to the CAPPED
value — so for every attempt `n ≥ 1` and jitter outcome `r ∈ [0,1)` the
delay lies in `[0.8*M, 1.2*M)` (stated multiplied by 5: `4M ≤ 5*delay`
and `5*delay < 6M`), is therefore always below 72000 ms but can exceed
60000 ms once `n ≥ 7`; restricted to attempts `n ≤ 6` the originally
claimed interval `[0.8*base*2^(n-1), 1.2*base*2^(n-1)]` and the 60000 ms
cap do hold. -/
theorem calculateBackoff_bounds (n : Nat) (r : ℚ) (hn : 1 ≤ n)
    (h0 : 0 ≤ r) (h1 : r < 1) :
    4 * min ((1000 : ℤ) * 2 ^ (n - 1)) 60000 ≤ 5 * calculateBackoff n r ∧
    5 * calculateBackoff n r < 6 * min ((1000 : ℤ) * 2 ^ (n - 1)) 60000 ∧
    calculateBackoff n r < 72000 ∧
    (n ≤ 6 → calculateBackoff n r ≤ 60000 ∧
       4 * ((1000 : ℤ) * 2 ^ (n - 1)) ≤ 5 * calculateBackoff n r ∧
       5 * calculateBackoff n r < 6 * ((1000 : ℤ) * 2 ^ (n - 1))) := by
  set K : ℤ := min (200 * 2 ^ (n - 1)) 12000 with hKdef
  have hK0 : (0 : ℤ) < K := lt_min (by positivity) (by norm_num)
  have hK12 : K ≤ 12000 := min_le_right _ _
  have hM : min ((1000 : ℤ) * 2 ^ (n - 1)) 60000 = 5 * K := by
    rcases le_total ((200 : ℤ) * 2 ^ (n - 1)) 12000 with h | h
    · rw [hKdef, min_eq_left h, min_eq_left (by linarith)]
      ring
    · rw [hKdef, min_eq_right h, min_eq_right (by linarith)]
      norm_num
  have hMQ : min ((1000 : ℚ) * 2 ^ (n - 1)) 60000 = ((5 * K : ℤ) : ℚ) := by
    have h5 := congrArg (fun z : ℤ => (z : ℚ)) hM
    push_cast at h5 ⊢
    convert h5 using 2
  have hcb : calculateBackoff n r = ⌊(4 * (K : ℚ) + 2 * K * r : ℚ)⌋ := by
    unfold calculateBackoff baseBackoffMs maxBackoffMs
    push_cast
    rw [hMQ]
    push_cast
    ring_nf
  have hKQ : (0 : ℚ) < (K : ℚ) := by exact_mod_cast hK0
  have hlow : 4 * K ≤ calculateBackoff n r := by
    rw [hcb]
    refine Int.le_floor.mpr ?_
    push_cast
    nlinarith
  have hhigh : calculateBackoff n r < 6 * K := by
    rw [hcb]
    refine Int.floor_lt.mpr ?_
    push_cast
    nlinarith
  refine ⟨by rw [hM]; linarith, by rw [hM]; linarith, by linarith, ?_⟩
  intro h6
  have hpow : (2 : ℤ) ^ (n - 1) ≤ 2 ^ 5 := by
    apply pow_le_pow_right₀ (by norm_num)
    omega
  have hKeq : K = 200 * 2 ^ (n - 1) := by
    rw [hKdef, min_eq_left (by nlinarith)]
  refine ⟨by nlinarith, by nlinarith, by nlinarith⟩

/-- C5 (witness): the amended bounds at attempt 1 with jitter outcome
one half. -/
theorem calculateBackoff_bounds_witness :
    ((1 : Nat) ≤ 1 ∧ (0 : ℚ) ≤ 1 / 2 ∧ (1 : ℚ) / 2 < 1) ∧
    calculateBackoff 1 (1 / 2) < 72000 :=
  ⟨⟨by norm_num, by norm_num, by norm_num⟩,
   (calculateBackoff_bounds 1 (1 / 2) (by norm_num) (by norm_num) (by norm_num)).2.2.1⟩

end SMA
